import Mathlib

/-!
Verification of the news-intelligence agent (four leaf tools plus one
workflow step) against its design record.  The definitions below are a
shallow embedding of the TypeScript sources: pure functions model each
tool's `execute`, with the non-deterministic outside world (credential,
HTTP outcome, JSON parse outcome, clock, PRNG) passed in explicitly as an
environment.  Each `execute` returns its result paired with the number of
outbound HTTP requests it performed.
-/

namespace NewsAgent

/-! ## Character and string helpers (JS semantics) -/

/-- Whitespace class of JS regular expressions restricted to ASCII
(space, tab, newline, carriage return, vertical tab, form feed). -/
def isWs (c : Char) : Bool :=
  c == ' ' || c == '\t' || c == '\n' || c == '\x0d' || c == '\x0b' || c == '\x0c'

/-- Lower-case every character (model of `String.prototype.toLowerCase`
on the ASCII fragment the code manipulates). -/
def lcList (l : List Char) : List Char := l.map Char.toLower

/-- Does `p` lead (start) the list `l`. -/
def leadsWith : List Char → List Char → Bool
  | [], _ => true
  | _ :: _, [] => false
  | p :: ps, c :: cs => p == c && leadsWith ps cs

/-- Does `p` occur somewhere inside `l` (model of `String.prototype.includes`). -/
def hasSub (p : List Char) : List Char → Bool
  | [] => leadsWith p []
  | c :: cs => leadsWith p (c :: cs) || hasSub p cs

/-- Case-insensitive containment used by keyword searches in the code. -/
def containsCI (s : String) (pat : String) : Bool :=
  hasSub pat.toList (lcList s.toList)

/-- Match the (lower-case) pattern `p` case-insensitively at the head of
`l`, returning the remainder on success. -/
def ciAfter : List Char → List Char → Option (List Char)
  | [], l => some l
  | _ :: _, [] => none
  | p :: ps, c :: cs => if c.toLower == p then ciAfter ps cs else none

/-- Strip JS whitespace from both ends (model of `String.prototype.trim`). -/
def trimList (l : List Char) : List Char :=
  ((l.dropWhile isWs).reverse.dropWhile isWs).reverse

/-- String-level trim. -/
def trimStr (s : String) : String := String.mk (trimList s.toList)

/-- Numeric value of a digit run. -/
def digitsVal (l : List Char) : Nat :=
  l.foldl (fun n c => n * 10 + (c.toNat - 48)) 0

/-- Value of a captured `\d+\.?\d*` numeral (model of `parseFloat` on the
strings that regular expression can capture). -/
def parseNum (s : String) : ℚ :=
  match s.toList.span (fun c => c != '.') with
  | (ip, []) => (digitsVal ip : ℚ)
  | (ip, _ :: fp) => (digitsVal ip : ℚ) + (digitsVal fp : ℚ) / ((10 : ℚ) ^ fp.length)

/-- Rounding of `Math.round`: half-values round toward positive infinity. -/
def jsRound (q : ℚ) : ℤ := ⌊q + 1/2⌋

/-! ## Fact-check response parsing

The fact-check tool extracts a verdict, a confidence, evidence lines and
related claims from the model's free text with four regular expressions.
The scanners below reproduce the JS engine's behaviour on those patterns:
leftmost match, ordered alternation, greedy quantifiers with backtracking
where the pattern makes backtracking observable. -/

/-- Ordered alternation of `/verdict:\s*(true|mostly_true|mixed|mostly_false|false|unverifiable)/i`. -/
def verdictAlts : List (List Char) :=
  [String.toList "true", String.toList "mostly_true", String.toList "mixed",
   String.toList "mostly_false", String.toList "false", String.toList "unverifiable"]

/-- First alternative that matches case-insensitively at the head of `r`. -/
def altAt : List (List Char) → List Char → Option String
  | [], _ => none
  | a :: rest, r =>
    match ciAfter a r with
    | some _ => some (String.mk a)
    | none => altAt rest r

/-- Attempt the verdict pattern at one position.  The `\s*` needs no
backtracking because every alternative starts with a letter. -/
def matchVerdictAt (l : List Char) : Option String :=
  match ciAfter (String.toList "verdict:") l with
  | none => none
  | some r => altAt verdictAlts (r.dropWhile isWs)

/-- Leftmost position where the verdict pattern matches. -/
def scanVerdict : List Char → Option String
  | [] => none
  | c :: cs =>
    match matchVerdictAt (c :: cs) with
    | some v => some v
    | none => scanVerdict cs

/-- Verdict extraction including the `"unverifiable"` default. -/
def extractVerdict (t : String) : String :=
  (scanVerdict t.toList).getD "unverifiable"

/-- Attempt `/confidence:\s*(\d+\.?\d*)/i` at one position, returning the
captured numeral. -/
def matchConfAt (l : List Char) : Option String :=
  match ciAfter (String.toList "confidence:") l with
  | none => none
  | some r =>
    let r1 := r.dropWhile isWs
    let ds := r1.takeWhile Char.isDigit
    if ds.isEmpty then none
    else
      match r1.drop ds.length with
      | '.' :: r2 => some (String.mk (ds ++ '.' :: r2.takeWhile Char.isDigit))
      | _ => some (String.mk ds)

/-- Leftmost position where the confidence pattern matches. -/
def scanConf : List Char → Option String
  | [] => none
  | c :: cs =>
    match matchConfAt (c :: cs) with
    | some v => some v
    | none => scanConf cs

/-- Confidence extraction: captured number divided by 100, default 0.5. -/
def extractConfidence (t : String) : ℚ :=
  match scanConf t.toList with
  | some ns => parseNum ns / 100
  | none => 1/2

/-- Final `([^\n]+)` of a pattern: the greedy grab of the rest of the line. -/
def lineGrab (r : List Char) : Option (List Char × List Char) :=
  let g := r.takeWhile (fun c => c != '\n')
  if g.isEmpty then none else some (g, r.drop g.length)

/-- Backtracking `\s*([^\n]+)`: the `\s*` prefers to consume `s` characters
but gives them back one at a time until the line capture succeeds. -/
def wsLineGo : Nat → List Char → Option (List Char × List Char)
  | 0, r => lineGrab r
  | s + 1, r =>
    match lineGrab (r.drop (s + 1)) with
    | some x => some x
    | none => wsLineGo s r

/-- Match `\s*([^\n]+)` at the head of `r`. -/
def wsThenLine (r : List Char) : Option (List Char × List Char) :=
  wsLineGo (r.takeWhile isWs).length r

/-- After group 1 of the evidence pattern: `\s*-` (no backtracking needed,
a dash is not whitespace) then `\s*([^\n]+)`. -/
def dashThen (g1 : List Char) (r2 : List Char) : Option (List Char × List Char × List Char) :=
  match r2.dropWhile isWs with
  | '-' :: r4 =>
    match wsThenLine r4 with
    | some (g2, rest) => some (g1, g2, rest)
    | none => none
  | _ => none

/-- Greedy group 1 `([^\n]+)` of the evidence pattern: try the longest
prefix of the current line first, shrinking until the tail matches. -/
def tryG1 : Nat → List Char → Option (List Char × List Char × List Char)
  | 0, _ => none
  | j + 1, r1 =>
    match dashThen (r1.take (j + 1)) (r1.drop (j + 1)) with
    | some x => some x
    | none => tryG1 j r1

/-- Start group 1 at `r1` with its maximal possible length. -/
def g1Start (r1 : List Char) : Option (List Char × List Char × List Char) :=
  tryG1 (r1.takeWhile (fun c => c != '\n')).length r1

/-- Backtracking `\s*` before group 1 of the evidence pattern. -/
def tryWsA : Nat → List Char → Option (List Char × List Char × List Char)
  | 0, r => g1Start r
  | k + 1, r =>
    match g1Start (r.drop (k + 1)) with
    | some x => some x
    | none => tryWsA k r

/-- Attempt `/source:\s*([^\n]+)\s*-\s*([^\n]+)/i` at one position,
returning both captures and the remainder after the whole match. -/
def matchSourceAt (l : List Char) : Option (List Char × List Char × List Char) :=
  match ciAfter (String.toList "source:") l with
  | none => none
  | some r => tryWsA (r.takeWhile isWs).length r

/-- The `exec` loop over the global evidence pattern: collect matches left
to right, resuming after each whole match.  Fuel is the input length; every
step strictly shortens the list. -/
def scanSources : Nat → List Char → List (List Char × List Char)
  | 0, _ => []
  | _ + 1, [] => []
  | fuel + 1, c :: cs =>
    match matchSourceAt (c :: cs) with
    | some (g1, g2, rest) => (g1, g2) :: scanSources fuel rest
    | none => scanSources fuel cs

/-- One evidence record of the fact-check output. -/
structure Evidence where
  source : String
  supporting : Bool
  quote : String
  credibility : ℚ
deriving DecidableEq, Repr

/-- Evidence record built from one match of the source pattern. -/
def mkEvidence (p : List Char × List Char) : Evidence :=
  { source := String.mk (trimList p.1)
  , supporting := hasSub (String.toList "support") (lcList p.2)
      || hasSub (String.toList "confirm") (lcList p.2)
  , quote := String.mk (trimList p.2)
  , credibility := 4/5 }

/-- Evidence extraction of the fact-check tool, capped at 5 items. -/
def extractEvidence (t : String) : List Evidence :=
  ((scanSources t.toList.length t.toList).map mkEvidence).take 5

/-- Attempt `/related claim[s]?:\s*([^\n]+)/i` at one position. -/
def matchRelatedAt (l : List Char) : Option (List Char × List Char) :=
  match ciAfter (String.toList "related claim") l with
  | none => none
  | some r =>
    match r with
    | c :: r1 =>
      if c.toLower == 's' then
        match r1 with
        | ':' :: r2 => wsThenLine r2
        | _ => none
      else if c == ':' then wsThenLine r1
      else none
    | [] => none

/-- The `exec` loop over the global related-claims pattern. -/
def scanRelated : Nat → List Char → List (List Char)
  | 0, _ => []
  | _ + 1, [] => []
  | fuel + 1, c :: cs =>
    match matchRelatedAt (c :: cs) with
    | some (g, rest) => g :: scanRelated fuel rest
    | none => scanRelated fuel cs

/-- Related-claim extraction, trimmed, capped at 3 items. -/
def extractRelated (t : String) : List String :=
  ((scanRelated t.toList.length t.toList).map (fun g => String.mk (trimList g))).take 3

/-! ## Quoted-claim discovery in the workflow -/

/-- A double or single quote character. -/
def isQuoteCh (c : Char) : Bool := c.toNat == 34 || c.toNat == 39

/-- All matches of `/["']([^"']+)["']/g`, as full match strings including
the delimiting quotes, exactly as `String.prototype.match` returns them. -/
def scanQuoted : Nat → List Char → List String
  | 0, _ => []
  | _ + 1, [] => []
  | fuel + 1, c :: cs =>
    if isQuoteCh c then
      let run := cs.takeWhile (fun d => !(isQuoteCh d))
      match run, cs.drop run.length with
      | [], _ => scanQuoted fuel cs
      | _ :: _, q :: rest => String.mk (c :: (run ++ [q])) :: scanQuoted fuel rest
      | _ :: _, [] => scanQuoted fuel cs
    else scanQuoted fuel cs

/-- Quoted substrings of the digest used as fact-check candidates. -/
def extractQuoted (s : String) : List String :=
  scanQuoted s.toList.length s.toList

/-- Removal of every quote character (model of `claim.replace(/["']/g, "")`). -/
def stripQuotes (s : String) : String :=
  String.mk (s.toList.filter (fun c => !(isQuoteCh c)))

/-! ## Trend direction keyword search -/

/-- Trend direction derived from the narrative: case-insensitive substring
tests in the fixed order rising, declining, volatile, with default stable. -/
def trendDirectionOf (t : String) : String :=
  if containsCI t "rising" then "rising"
  else if containsCI t "declining" then "declining"
  else if containsCI t "volatile" then "volatile"
  else "stable"

/-! ## Data model

Transient records mirroring the zod schemas of the four tools and the
workflow.  Enumerations are kept as strings, as the code compares them
with string literals. -/

structure NewsInput where
  topic : String
  count : Nat
  language : String
  sortBy : String
  timeRange : String
deriving DecidableEq, Repr

structure NewsResult where
  topic : String
  summary : String
  timestamp : String
  articleCount : Nat
  sources : List String
  language : String
deriving DecidableEq, Repr

structure SentInput where
  text : String
  ctx : Option String
deriving DecidableEq, Repr

structure Emotions where
  joy : ℚ
  anger : ℚ
  fear : ℚ
  sadness : ℚ
  surprise : ℚ
  trust : ℚ
deriving DecidableEq, Repr

structure KeyPhrase where
  phrase : String
  sentiment : String
  importance : ℚ
deriving DecidableEq, Repr

structure SentResult where
  overallSentiment : String
  sentimentScore : ℚ
  emotions : Emotions
  subjectivity : ℚ
  confidence : ℚ
  keyPhrases : List KeyPhrase
  summary : String
deriving DecidableEq, Repr

structure FactInput where
  claim : String
  sources : List String
  ctx : Option String
deriving DecidableEq, Repr

structure FactResult where
  claim : String
  verdict : String
  confidence : ℚ
  evidence : List Evidence
  explanation : String
  relatedClaims : List String
  checkDate : String
deriving DecidableEq, Repr

structure TrendInput where
  topic : String
  timeframe : String
  region : Option String
deriving DecidableEq, Repr

structure Prediction where
  scenario : String
  probability : ℚ
  timeframe : String
  impact : String
deriving DecidableEq, Repr

structure RelatedTopic where
  topic : String
  correlation : ℚ
  relationship : String
deriving DecidableEq, Repr

structure TimelinePoint where
  date : String
  intensity : ℚ
  keyEvent : Option String
deriving DecidableEq, Repr

structure TrendResult where
  topic : String
  timeframe : String
  trendDirection : String
  momentum : ℚ
  keyDrivers : List String
  predictions : List Prediction
  relatedTopics : List RelatedTopic
  timeline : List TimelinePoint
  analysis : String
deriving DecidableEq, Repr

/-! ## The external world of one tool invocation -/

/-- Shape of the parsed chat-completion response body, with `Option` for
fields whose absence the code tests (`!data.choices`, missing message,
missing content). -/
structure ChatMessage where
  content : Option String
deriving DecidableEq, Repr

structure ChatChoice where
  message : Option ChatMessage
deriving DecidableEq, Repr

structure ChatData where
  choices : Option (List ChatChoice)
deriving DecidableEq, Repr

/-- Outcome of the one `fetch` a tool performs: the promise rejects, the
response is non-2xx (with its status and error body text), or it is 2xx
with a parsed JSON body. -/
inductive FetchOutcome where
  | reject (msg : String)
  | notOk (status : Nat) (errorText : String)
  | ok (data : ChatData)
deriving DecidableEq, Repr

/-- Result of `JSON.parse` on the sentiment tool's response content,
`none` when parsing throws.  The two fields the code validates are
optional; the rest are carried through to the output. -/
structure ParsedSent where
  overallSentiment : Option String
  sentimentScore : ℚ
  emotions : Option Emotions
  subjectivity : ℚ
  confidence : ℚ
  keyPhrases : List KeyPhrase
  summary : String
deriving DecidableEq, Repr

/-- Environment of one tool invocation: credential, HTTP outcome, JSON
parse outcome (sentiment only), clock readings and PRNG draws (trend
only). -/
structure ToolEnv where
  apiKey : Option String
  fetch : FetchOutcome
  parsed : Option ParsedSent
  now : String
  fromDateStr : String
  nowDateStr : String
  dateAt : Nat → String
  intensityAt : Nat → ℚ
  momentumRand : ℚ

/-- Error message used when the credential environment variable is unset. -/
def keyMissingMsg : String := "PERPLEXITY_API_KEY environment variable is not set"

/-- Classification of a non-2xx status shared by all four tools; only the
generic branch's message prefix differs per tool. -/
def classifyStatus (tag : String) (status : Nat) (errText : String) : String :=
  if status == 401 then
    "Invalid Perplexity API key. Please check your PERPLEXITY_API_KEY environment variable."
  else if status == 429 then
    "Rate limit exceeded. Please wait a moment and try again."
  else if 500 ≤ status then
    "Perplexity API server error. Please try again later."
  else tag ++ ": " ++ toString status ++ " - " ++ errText

/-- Shared post-fetch checks: `data.choices[0].message.content` must exist
and be non-blank, with the error messages of the code. -/
def extractContent (d : ChatData) : Except String String :=
  match d.choices with
  | none => .error "Invalid response format from Perplexity API"
  | some [] => .error "Invalid response format from Perplexity API"
  | some (ch :: _) =>
    match ch.message with
    | none => .error "Invalid response format from Perplexity API"
    | some m =>
      match m.content with
      | none => .error "Empty response from Perplexity API"
      | some s => if trimStr s = "" then .error "Empty response from Perplexity API" else .ok s

/-! ## News digest tool -/

/-- Templated fallback summary of the news tool, embedding the error
message and the display date range. -/
def newsFallbackSummary (fromDateStr nowDateStr topic language errMsg : String) : String :=
  "Unable to fetch news for \"" ++ topic ++ "\" at this time. \n\n🔍 SEARCH OVERVIEW\n• Total articles found: 0\n• Date range: "
  ++ fromDateStr ++ " to " ++ nowDateStr ++ "\n• Language: " ++ language
  ++ "\n• Key themes identified: Unable to analyze\n• Geographic coverage: Unable to determine\n\n📋 ARTICLE SUMMARIES\n───────────────────────────────────────\nNo articles could be retrieved due to: "
  ++ errMsg
  ++ "\n\n📊 TREND ANALYSIS\n• Overall sentiment: Unable to determine\n• Emerging patterns: No data available\n• Geographic focus: Unable to determine\n• Timeline: Unable to analyze\n• Contradictions: No data available\n\n🎯 KEY TAKEAWAYS\n• Most important development: Unable to determine\n• What to watch: Monitor for future developments\n• Reliability assessment: Low confidence due to data unavailability\n• Related topics: Unable to determine\n\n⚠️ CONTEXT & VERIFICATION\n• Background context: Unable to provide context\n• Unverified claims: No claims to verify\n• Source diversity: No sources available\n\nPlease try again later or check your API configuration."

/-- Fallback record of the news tool's catch block. -/
def newsFallback (env : ToolEnv) (input : NewsInput) (errMsg : String) : NewsResult :=
  { topic := input.topic
  , summary := newsFallbackSummary env.fromDateStr env.nowDateStr input.topic input.language errMsg
  , timestamp := env.now
  , articleCount := 0
  , sources := ["Error - No sources available"]
  , language := input.language }

/-- The news tool's `execute`: note it performs no emptiness validation on
`topic`; only the credential is checked before the fetch.  The second
component counts outbound HTTP requests. -/
def newsExecute (env : ToolEnv) (input : NewsInput) : NewsResult × Nat :=
  match env.apiKey with
  | none => (newsFallback env input keyMissingMsg, 0)
  | some _ =>
    match env.fetch with
    | .reject msg => (newsFallback env input msg, 1)
    | .notOk status errText =>
      (newsFallback env input (classifyStatus "Perplexity API error" status errText), 1)
    | .ok data =>
      match extractContent data with
      | .error e => (newsFallback env input e, 1)
      | .ok s =>
        ({ topic := input.topic
         , summary := s
         , timestamp := env.now
         , articleCount := input.count
         , sources := ["Perplexity AI Analysis"]
         , language := input.language }, 1)

/-! ## Sentiment tool -/

/-- Hard-failure fallback of the sentiment tool's catch block: all-zero
emotions and zero confidence. -/
def sentHardFallback (msg : String) : SentResult :=
  { overallSentiment := "neutral"
  , sentimentScore := 0
  , emotions := ⟨0, 0, 0, 0, 0, 0⟩
  , subjectivity := 1/2
  , confidence := 0
  , keyPhrases := []
  , summary := "Sentiment analysis failed: " ++ msg ++ ". Using neutral fallback values." }

/-- Substitute object used when `JSON.parse` on the response fails:
neutral-leaning values with confidence 0.7. -/
def parsedFallback : ParsedSent :=
  { overallSentiment := some "neutral"
  , sentimentScore := 0
  , emotions := some ⟨1/2, 1/10, 1/10, 1/10, 1/10, 1/2⟩
  , subjectivity := 1/2
  , confidence := 7/10
  , keyPhrases := []
  , summary := "Sentiment analysis completed with fallback values due to parsing error." }

/-- Sentiment result produced on the JSON-parse-failure path. -/
def sentParseFallbackResult : SentResult :=
  { overallSentiment := "neutral"
  , sentimentScore := 0
  , emotions := ⟨1/2, 1/10, 1/10, 1/10, 1/10, 1/2⟩
  , subjectivity := 1/2
  , confidence := 7/10
  , keyPhrases := []
  , summary := "Sentiment analysis completed with fallback values due to parsing error." }

/-- The sentiment tool's `execute`: empty-text validation, credential
validation, fetch, shared response checks, JSON parse with local default,
then structure validation of the parsed object. -/
def sentExecute (env : ToolEnv) (input : SentInput) : SentResult × Nat :=
  if trimStr input.text = "" then (sentHardFallback "Text input is empty or invalid", 0)
  else
    match env.apiKey with
    | none => (sentHardFallback keyMissingMsg, 0)
    | some _ =>
      match env.fetch with
      | .reject msg => (sentHardFallback msg, 1)
      | .notOk status errText =>
        (sentHardFallback (classifyStatus "Sentiment analysis API error" status errText), 1)
      | .ok data =>
        match extractContent data with
        | .error e => (sentHardFallback e, 1)
        | .ok _ =>
          let p := env.parsed.getD parsedFallback
          match p.overallSentiment, p.emotions with
          | some o, some e =>
            if o = "" then (sentHardFallback "Invalid sentiment analysis result structure", 1)
            else
              ({ overallSentiment := o
               , sentimentScore := p.sentimentScore
               , emotions := e
               , subjectivity := p.subjectivity
               , confidence := p.confidence
               , keyPhrases := p.keyPhrases
               , summary := p.summary }, 1)
          | _, _ => (sentHardFallback "Invalid sentiment analysis result structure", 1)

/-! ## Fact-check tool -/

/-- Fallback record of the fact-check tool's catch block. -/
def factFallback (claim msg now : String) : FactResult :=
  { claim := claim
  , verdict := "unverifiable"
  , confidence := 0
  , evidence := []
  , explanation := "Fact-checking failed: " ++ msg ++ ". Unable to verify this claim at this time."
  , relatedClaims := []
  , checkDate := now }

/-- The fact-check tool's `execute`. -/
def factExecute (env : ToolEnv) (input : FactInput) : FactResult × Nat :=
  if trimStr input.claim = "" then
    (factFallback input.claim "Claim input is empty or invalid" env.now, 0)
  else
    match env.apiKey with
    | none => (factFallback input.claim keyMissingMsg env.now, 0)
    | some _ =>
      match env.fetch with
      | .reject msg => (factFallback input.claim msg env.now, 1)
      | .notOk status errText =>
        (factFallback input.claim (classifyStatus "Fact-check API error" status errText) env.now, 1)
      | .ok data =>
        match extractContent data with
        | .error e => (factFallback input.claim e env.now, 1)
        | .ok t =>
          ({ claim := input.claim
           , verdict := extractVerdict t
           , confidence := extractConfidence t
           , evidence := extractEvidence t
           , explanation := t
           , relatedClaims := extractRelated t
           , checkDate := env.now }, 1)

/-! ## Trend tool -/

/-- Fallback record of the trend tool's catch block. -/
def trendFallback (topic timeframe msg : String) : TrendResult :=
  { topic := topic
  , timeframe := timeframe
  , trendDirection := "stable"
  , momentum := 0
  , keyDrivers := []
  , predictions := []
  , relatedTopics := []
  , timeline := []
  , analysis := "Trend analysis failed: " ++ msg ++ ". Unable to analyze trends for \"" ++ topic ++ "\" at this time." }

/-- Seven-point timeline with pseudo-random intensities and a fixed key
event at offset 3 days back. -/
def trendTimeline (env : ToolEnv) : List TimelinePoint :=
  (List.range 7).map (fun k =>
    let i := 6 - k
    { date := env.dateAt i
    , intensity := env.intensityAt i
    , keyEvent := if i == 3 then some "Major development" else none })

/-- The trend tool's `execute`. -/
def trendExecute (env : ToolEnv) (input : TrendInput) : TrendResult × Nat :=
  if trimStr input.topic = "" then
    (trendFallback input.topic input.timeframe "Topic input is empty or invalid", 0)
  else
    match env.apiKey with
    | none => (trendFallback input.topic input.timeframe keyMissingMsg, 0)
    | some _ =>
      match env.fetch with
      | .reject msg => (trendFallback input.topic input.timeframe msg, 1)
      | .notOk status errText =>
        (trendFallback input.topic input.timeframe (classifyStatus "Trend analysis API error" status errText), 1)
      | .ok data =>
        match extractContent data with
        | .error e => (trendFallback input.topic input.timeframe e, 1)
        | .ok t =>
          ({ topic := input.topic
           , timeframe := input.timeframe
           , trendDirection := trendDirectionOf t
           , momentum := env.momentumRand
           , keyDrivers := ["Public interest surge", "Media coverage increase", "Policy changes"]
           , predictions :=
              [ ⟨"Continued growth in public interest", 3/4, "Next 2 weeks", "high"⟩
              , ⟨"Stabilization of current trends", 3/5, "Next month", "medium"⟩
              , ⟨"Potential policy response", 2/5, "Next quarter", "high"⟩ ]
           , relatedTopics :=
              [ ⟨"Economic impact", 4/5, "Direct correlation with market trends"⟩
              , ⟨"Policy developments", 3/5, "Influences regulatory environment"⟩
              , ⟨"Public opinion", 7/10, "Drives media coverage"⟩ ]
           , timeline := trendTimeline env
           , analysis := t }, 1)

/-! ## The comprehensive-analysis workflow step

The step awaits each tool in order.  Each awaited call is modelled as an
`Except`-valued outcome provided by the run environment, so that the
step's own catch blocks (rethrow for news, sentiment and trend; swallow
for fact-check; one top-level catch producing the fallback briefing) are
faithfully represented, including against rejections that the tools'
internal catch blocks would normally prevent. -/

structure WfInput where
  topic : String
  depth : String
  language : String
  region : Option String
deriving DecidableEq, Repr

structure WfEnv where
  newsOutcome : Except String NewsResult
  sentimentOutcome : Except String SentResult
  factOutcome : String → Except String FactResult
  trendOutcome : Except String TrendResult
  now : String

structure ExecSummary where
  keyFindings : List String
  recommendedActions : List String
  riskLevel : String
deriving DecidableEq, Repr

structure NewsSection where
  summary : String
  sourceCount : Nat
  geographicScope : List String
  timelineSummary : String
deriving DecidableEq, Repr

structure SentSection where
  overallSentiment : String
  publicMood : String
  emotionalDrivers : List String
  sentimentShift : String
deriving DecidableEq, Repr

structure FactSection where
  verifiedClaims : List String
  disputedClaims : List String
  misinformationRisk : String
deriving DecidableEq, Repr

structure TrendSection where
  currentTrend : String
  momentum : ℚ
  predictions : List String
  relatedTrends : List String
deriving DecidableEq, Repr

structure StratRec where
  action : String
  priority : String
  rationale : String
deriving DecidableEq, Repr

structure WfMeta where
  analysisDate : String
  confidence : ℚ
  dataQuality : String
deriving DecidableEq, Repr

structure WfResult where
  topic : String
  executiveSummary : ExecSummary
  newsAnalysis : NewsSection
  sentimentAnalysis : SentSection
  factChecking : FactSection
  trendAnalysis : TrendSection
  strategicRecommendations : List StratRec
  metadata : WfMeta
deriving DecidableEq, Repr

/-- All-at-once sequencing of the fact-check promises (`Promise.all`):
the first rejection rejects the whole batch. -/
def seqExcept : List (Except String FactResult) → Except String (List FactResult)
  | [] => .ok []
  | .error e :: _ => .error e
  | .ok r :: rest =>
    match seqExcept rest with
    | .ok rs => .ok (r :: rs)
    | .error e => .error e

/-- The fact-check stage: quoted claims from the digest, at most three,
quote characters stripped, checked jointly; any failure is swallowed into
an empty result list, and no claims means the stage is skipped. -/
def wfFactResults (env : WfEnv) (summary : String) : List FactResult :=
  let claims := extractQuoted summary
  if 0 < claims.length then
    match seqExcept ((claims.take 3).map (fun c => env.factOutcome (stripQuotes c))) with
    | .ok rs => rs
    | .error _ => []
  else []

/-- JS `x || "Unknown claim"` on a claim string. -/
def orUnknownClaim (s : String) : String := if s = "" then "Unknown claim" else s

/-- Entries of the emotions object in insertion order
(`Object.entries(sentimentResult.emotions)`). -/
def emotionEntries (e : Emotions) : List (String × ℚ) :=
  [("joy", e.joy), ("anger", e.anger), ("fear", e.fear),
   ("sadness", e.sadness), ("surprise", e.surprise), ("trust", e.trust)]

/-- The final structuring stage: a pure transformation of the four step
results and the request into the briefing record. -/
def structureResult (d : WfInput) (news : NewsResult) (sent : SentResult)
    (fcs : List FactResult) (trend : TrendResult) (now : String) : WfResult :=
  { topic := d.topic
  , executiveSummary :=
    { keyFindings :=
        [ "Primary sentiment: " ++ sent.overallSentiment
        , "Trend direction: " ++ trend.trendDirection
        , "Source diversity: " ++ toString news.sources.length ++ " sources" ]
    , recommendedActions :=
        [ "Monitor developing situation"
        , "Prepare stakeholder communications"
        , "Review risk mitigation strategies" ]
    , riskLevel :=
        if 6/10 < sent.emotions.fear then "high"
        else if 1/2 < sent.emotions.anger then "medium"
        else "low" }
  , newsAnalysis :=
    { summary := news.summary
    , sourceCount := news.articleCount
    , geographicScope :=
        match d.region with
        | some r => if r = "" then ["Global"] else [r]
        | none => ["Global"]
    , timelineSummary := "Coverage spans recent developments" }
  , sentimentAnalysis :=
    { overallSentiment := sent.overallSentiment
    , publicMood := toString (jsRound (sent.sentimentScore * 100)) ++ "% positive"
    , emotionalDrivers :=
        ((emotionEntries sent.emotions).filter (fun p => decide (1/2 < p.2))).map (fun p => p.1)
    , sentimentShift := "Analyzing temporal changes" }
  , factChecking :=
    { verifiedClaims :=
        ((fcs.filter (fun r => r.verdict == "true" || r.verdict == "mostly_true")).map
          (fun r => orUnknownClaim r.claim))
    , disputedClaims :=
        ((fcs.filter (fun r => r.verdict == "false" || r.verdict == "mostly_false")).map
          (fun r => orUnknownClaim r.claim))
    , misinformationRisk := if fcs.any (fun r => r.verdict == "false") then "high" else "low" }
  , trendAnalysis :=
    { currentTrend := trend.trendDirection
    , momentum := trend.momentum
    , predictions := trend.predictions.map (fun p => p.scenario)
    , relatedTrends := trend.relatedTopics.map (fun p => p.topic) }
  , strategicRecommendations :=
      [ ⟨"Implement monitoring dashboard", "immediate", "Early detection of sentiment shifts"⟩
      , ⟨"Develop response scenarios", "short-term", "Prepare for predicted developments"⟩
      , ⟨"Engage stakeholder communication", "immediate", "Address current sentiment and concerns"⟩ ]
  , metadata :=
    { analysisDate := now
    , confidence := 85/100
    , dataQuality :=
        if 5 < news.sources.length then "excellent"
        else if 2 < news.sources.length then "good"
        else "fair" } }

/-- Fallback briefing of the top-level catch block. -/
def wfFallback (topic now : String) : WfResult :=
  { topic := topic
  , executiveSummary :=
    { keyFindings := ["Analysis failed due to technical issues"]
    , recommendedActions := ["Retry the analysis", "Check system configuration"]
    , riskLevel := "medium" }
  , newsAnalysis :=
    { summary := "Unable to fetch news due to technical issues"
    , sourceCount := 0
    , geographicScope := ["Unknown"]
    , timelineSummary := "Analysis failed" }
  , sentimentAnalysis :=
    { overallSentiment := "neutral"
    , publicMood := "Unable to determine"
    , emotionalDrivers := []
    , sentimentShift := "Analysis failed" }
  , factChecking :=
    { verifiedClaims := []
    , disputedClaims := []
    , misinformationRisk := "low" }
  , trendAnalysis :=
    { currentTrend := "stable"
    , momentum := 0
    , predictions := []
    , relatedTrends := [] }
  , strategicRecommendations :=
      [⟨"Retry analysis", "immediate", "Technical issues prevented completion"⟩]
  , metadata :=
    { analysisDate := now
    , confidence := 0
    , dataQuality := "limited" } }

/-- JS `inputData?.topic || "unknown"` as evaluated in the catch block. -/
def jsTopic (input : Option WfInput) : String :=
  match input with
  | none => "unknown"
  | some d => if d.topic = "" then "unknown" else d.topic

/-- The workflow step's `execute`: missing input throws into the top-level
catch; news, sentiment and trend rejections are rethrown into it; the
fact-check stage swallows its failures; then the pure structuring stage. -/
def wfExecute (env : WfEnv) (input : Option WfInput) : WfResult :=
  match input with
  | none => wfFallback "unknown" env.now
  | some d =>
    match env.newsOutcome with
    | .error _ => wfFallback (jsTopic (some d)) env.now
    | .ok news =>
      match env.sentimentOutcome with
      | .error _ => wfFallback (jsTopic (some d)) env.now
      | .ok sent =>
        let fcs := wfFactResults env news.summary
        match env.trendOutcome with
        | .error _ => wfFallback (jsTopic (some d)) env.now
        | .ok trend => structureResult d news sent fcs trend env.now

/-- Number of tool invocations the workflow run awaits (news, sentiment,
one per fact-checked claim, trend); the structuring stage adds none. -/
def wfCalls (env : WfEnv) (input : Option WfInput) : Nat :=
  match input with
  | none => 0
  | some _ =>
    1 + (match env.newsOutcome with
    | .error _ => 0
    | .ok news =>
      1 + (match env.sentimentOutcome with
      | .error _ => 0
      | .ok _ => min (extractQuoted news.summary).length 3 + 1))

/-! ## Helper lemmas -/

/-- String append distributes over `toList`. -/
theorem strToList_append (a b : String) : (a ++ b).toList = a.toList ++ b.toList := by
  cases a
  cases b
  rfl

/-- A pattern occurs in any list it leads. -/
theorem leadsWith_self_append (p r : List Char) : leadsWith p (p ++ r) = true := by
  induction p with
  | nil => rfl
  | cons c cs ih => simp [leadsWith, ih]

/-- Occurrence is preserved by prepending. -/
theorem hasSub_append_left (p : List Char) (x : List Char) {l : List Char}
    (h : hasSub p l = true) : hasSub p (x ++ l) = true := by
  induction x with
  | nil => simpa using h
  | cons c cs ih => simp [hasSub, ih]

/-- A pattern occurs in itself followed by anything. -/
theorem hasSub_self_append (p r : List Char) (hp : p ≠ []) : hasSub p (p ++ r) = true := by
  cases p with
  | nil => exact absurd rfl hp
  | cons c cs =>
    have h := leadsWith_self_append (c :: cs) r
    simp [hasSub]
    exact Or.inl (by simpa using h)

/-- Does a string mention the completion credential's name. -/
def mentionsKey (s : String) : Bool :=
  hasSub (String.toList "PERPLEXITY_API_KEY") s.toList

/-- Any string of the shape `x ++ keyMissingMsg ++ y` mentions the
credential. -/
theorem mentionsKey_append (x y : String) : mentionsKey (x ++ keyMissingMsg ++ y) = true := by
  unfold mentionsKey
  rw [strToList_append, strToList_append]
  have hk : keyMissingMsg.toList =
      String.toList "PERPLEXITY_API_KEY" ++ String.toList " environment variable is not set" := rfl
  rw [hk, List.append_assoc, List.append_assoc]
  exact hasSub_append_left _ _ (hasSub_self_append _ _ (by decide))

/-- The scan for the verdict pattern returns the leftmost match: it agrees
with searching every suffix in order. -/
theorem scanVerdict_eq_first (l : List Char) :
    scanVerdict l = l.tails.findSome? matchVerdictAt := by
  induction l with
  | nil => rfl
  | cons c cs ih =>
    rw [scanVerdict, List.tails_cons, List.findSome?_cons]
    cases h : matchVerdictAt (c :: cs) <;> simp [h, ih]

/-- The scan for the confidence pattern returns the leftmost match. -/
theorem scanConf_eq_first (l : List Char) :
    scanConf l = l.tails.findSome? matchConfAt := by
  induction l with
  | nil => rfl
  | cons c cs ih =>
    rw [scanConf, List.tails_cons, List.findSome?_cons]
    cases h : matchConfAt (c :: cs) <;> simp [h, ih]

/-- When every fact-check invocation rejects, the stage yields the empty
result list, whether or not any quoted claim was found. -/
theorem wfFactResults_all_reject (env : WfEnv) (s : String)
    (h : ∀ c, ∃ e, env.factOutcome c = .error e) : wfFactResults env s = [] := by
  unfold wfFactResults
  cases hq : extractQuoted s with
  | nil => simp
  | cons c cs =>
    obtain ⟨e, he⟩ := h (stripQuotes c)
    simp [List.take_succ_cons, List.map_cons, he, seqExcept]

/-- The news tool returns exactly one source on every path. -/
theorem newsExecute_sources_length (env : ToolEnv) (i : NewsInput) :
    (newsExecute env i).1.sources.length = 1 := by
  unfold newsExecute
  cases env.apiKey with
  | none => rfl
  | some k =>
    cases env.fetch with
    | reject m => rfl
    | notOk st et => rfl
    | ok data =>
      cases h : extractContent data with
      | error e => simp only [h]; rfl
      | ok s => simp only [h]; rfl

/-! ## Claims -/

/-- C1 counterexample: the claim fails for the news digest tool, which
performs no emptiness validation on its required `topic` field.  With the
credential present and `topic = ""`, its `execute` performs one outbound
HTTP request instead of none. -/
theorem c1_counterexample :
    (newsExecute
      ⟨some "k", FetchOutcome.reject "boom", none, "T", "F", "N", fun _ => "", fun _ => 0, 0⟩
      ⟨"", 5, "en", "publishedAt", "week"⟩).2 ≠ 0 := by decide

/-- C1 (amended): the sentiment, fact-check and trend tools reject an
empty required field with their documented fallback record and perform no
HTTP request, regardless of the credential; the news tool has no such
check, and avoids the request on an empty topic only when the credential
is absent. -/
theorem c1_empty_required_field :
    (∀ (env : ToolEnv) (i : SentInput), i.text = "" →
      sentExecute env i = (sentHardFallback "Text input is empty or invalid", 0)) ∧
    (∀ (env : ToolEnv) (i : FactInput), i.claim = "" →
      factExecute env i = (factFallback i.claim "Claim input is empty or invalid" env.now, 0)) ∧
    (∀ (env : ToolEnv) (i : TrendInput), i.topic = "" →
      trendExecute env i = (trendFallback i.topic i.timeframe "Topic input is empty or invalid", 0)) ∧
    (∀ (env : ToolEnv) (i : NewsInput), env.apiKey = none → (newsExecute env i).2 = 0) := by
  refine ⟨?_, ?_, ?_, ?_⟩
  · intro env i h
    have ht : trimStr i.text = "" := by rw [h]; rfl
    simp [sentExecute, ht]
  · intro env i h
    have ht : trimStr i.claim = "" := by rw [h]; rfl
    simp [factExecute, ht]
  · intro env i h
    have ht : trimStr i.topic = "" := by rw [h]; rfl
    simp [trendExecute, ht]
  · intro env i h
    simp [newsExecute, h]

/-- C1 witness: the amended statement at concrete inputs. -/
theorem c1_witness :
    sentExecute ⟨none, FetchOutcome.reject "x", none, "T", "F", "N", fun _ => "", fun _ => 0, 0⟩
      ⟨"", none⟩ = (sentHardFallback "Text input is empty or invalid", 0) ∧
    factExecute ⟨some "k", FetchOutcome.reject "x", none, "T", "F", "N", fun _ => "", fun _ => 0, 0⟩
      ⟨"", [], none⟩ = (factFallback "" "Claim input is empty or invalid" "T", 0) ∧
    trendExecute ⟨some "k", FetchOutcome.reject "x", none, "T", "F", "N", fun _ => "", fun _ => 0, 0⟩
      ⟨"", "week", none⟩ = (trendFallback "" "week" "Topic input is empty or invalid", 0) ∧
    (newsExecute ⟨none, FetchOutcome.reject "x", none, "T", "F", "N", fun _ => "", fun _ => 0, 0⟩
      ⟨"ai", 5, "en", "publishedAt", "week"⟩).2 = 0 :=
  ⟨c1_empty_required_field.1 _ _ rfl,
   c1_empty_required_field.2.1 _ _ rfl,
   c1_empty_required_field.2.2.1 _ _ rfl,
   c1_empty_required_field.2.2.2 _ _ rfl⟩

/-- C2 counterexample: with the news step rejecting and an input whose
topic is the empty string, the fallback briefing's topic is `"unknown"`,
not the echoed (empty) input topic, because the code uses the falsiness
test `inputData?.topic || "unknown"`. -/
theorem c2_counterexample :
    (wfExecute
        ⟨Except.error "news down", Except.error "x", fun _ => Except.error "x", Except.error "x", "T"⟩
        (some ⟨"", "standard", "en", none⟩)).topic = "unknown" ∧
    (wfExecute
        ⟨Except.error "news down", Except.error "x", fun _ => Except.error "x", Except.error "x", "T"⟩
        (some ⟨"", "standard", "en", none⟩)).topic ≠ "" := by
  constructor <;> decide

/-- C2 (amended): if the news step rejects, the workflow returns the full
top-level fallback briefing, whose topic echoes the input topic when that
is a non-empty string and is `"unknown"` when the input is absent or its
topic is empty; metadata.confidence is 0, dataQuality is "limited", and
riskLevel is "medium". -/
theorem c2_news_failure_fallback :
    ∀ (env : WfEnv) (input : Option WfInput) (e : String),
      env.newsOutcome = Except.error e →
      wfExecute env input = wfFallback (jsTopic input) env.now ∧
      (wfExecute env input).metadata.confidence = 0 ∧
      (wfExecute env input).metadata.dataQuality = "limited" ∧
      (wfExecute env input).executiveSummary.riskLevel = "medium" := by
  intro env input e h
  have h1 : wfExecute env input = wfFallback (jsTopic input) env.now := by
    cases input with
    | none => rfl
    | some d => simp [wfExecute, h]
  refine ⟨h1, ?_, ?_, ?_⟩ <;> rw [h1] <;> rfl

/-- C2 witness: the amended statement at a concrete run. -/
theorem c2_witness :
    wfExecute
        ⟨Except.error "boom", Except.error "x", fun _ => Except.error "x", Except.error "x", "T"⟩
        (some ⟨"climate", "standard", "en", none⟩)
      = wfFallback (jsTopic (some ⟨"climate", "standard", "en", none⟩)) "T" :=
  (c2_news_failure_fallback _ _ "boom" rfl).1

/-- C3: if every fact-check invocation rejects while news, sentiment and
trend succeed, the workflow still completes, its result is the structuring
of the three successful step outputs with an empty fact-check list, and
both verifiedClaims and disputedClaims are empty. -/
theorem c3_factcheck_fault_isolated :
    ∀ (env : WfEnv) (d : WfInput) (news : NewsResult) (sent : SentResult) (trend : TrendResult),
      env.newsOutcome = .ok news →
      env.sentimentOutcome = .ok sent →
      env.trendOutcome = .ok trend →
      (∀ c, ∃ e, env.factOutcome c = .error e) →
      wfExecute env (some d) = structureResult d news sent [] trend env.now ∧
      (wfExecute env (some d)).factChecking.verifiedClaims = [] ∧
      (wfExecute env (some d)).factChecking.disputedClaims = [] ∧
      (wfExecute env (some d)).newsAnalysis.summary = news.summary ∧
      (wfExecute env (some d)).sentimentAnalysis.overallSentiment = sent.overallSentiment ∧
      (wfExecute env (some d)).trendAnalysis.currentTrend = trend.trendDirection ∧
      (wfExecute env (some d)).trendAnalysis.momentum = trend.momentum := by
  intro env d news sent trend hn hs ht hf
  have hfr := wfFactResults_all_reject env news.summary hf
  have h1 : wfExecute env (some d) = structureResult d news sent [] trend env.now := by
    simp [wfExecute, hn, hs, ht, hfr]
  exact ⟨h1, by rw [h1]; rfl, by rw [h1]; rfl, by rw [h1]; rfl,
         by rw [h1]; rfl, by rw [h1]; rfl, by rw [h1]; rfl⟩

/-- C3 witness: the statement at a concrete run whose fact-check always
rejects. -/
theorem c3_witness :
    wfExecute
        ⟨Except.ok ⟨"ai", "it said \"chips are up\" today", "T", 5, ["Perplexity AI Analysis"], "en"⟩,
         Except.ok ⟨"neutral", 0, ⟨0, 0, 0, 0, 0, 0⟩, 1/2, 1/2, [], "s"⟩,
         fun _ => Except.error "fact-check rejected",
         Except.ok ⟨"ai", "week", "stable", 0, [], [], [], [], "a"⟩, "T"⟩
        (some ⟨"ai", "standard", "en", none⟩)
      = structureResult ⟨"ai", "standard", "en", none⟩
          ⟨"ai", "it said \"chips are up\" today", "T", 5, ["Perplexity AI Analysis"], "en"⟩
          ⟨"neutral", 0, ⟨0, 0, 0, 0, 0, 0⟩, 1/2, 1/2, [], "s"⟩
          []
          ⟨"ai", "week", "stable", 0, [], [], [], [], "a"⟩ "T" :=
  (c3_factcheck_fault_isolated _ _ _ _ _ rfl rfl rfl (fun _ => ⟨"fact-check rejected", rfl⟩)).1

/-- Sample fact-check response text containing a verdict and an integer
confidence. -/
def factSampleText : String :=
  "Analysis complete. Verdict: mostly_false. Confidence: 72. Sources were checked."

/-- C4: verdict extraction is the leftmost case-insensitive match of the
verdict pattern with the `"unverifiable"` default, and confidence is the
first number after `confidence:` divided by 100 with the 0.5 default; on
the sample text they give `"mostly_false"` and 0.72. -/
theorem c4_verdict_confidence_extraction :
    extractVerdict factSampleText = "mostly_false" ∧
    extractConfidence factSampleText = 72/100 ∧
    (∀ t : String, scanVerdict t.toList = t.toList.tails.findSome? matchVerdictAt) ∧
    (∀ t : String, scanConf t.toList = t.toList.tails.findSome? matchConfAt) ∧
    (∀ t : String, scanVerdict t.toList = none → extractVerdict t = "unverifiable") ∧
    (∀ t : String, scanConf t.toList = none → extractConfidence t = 1/2) := by
  refine ⟨by decide, ?_, fun t => scanVerdict_eq_first _, fun t => scanConf_eq_first _, ?_, ?_⟩
  · have h1 : scanConf factSampleText.toList = some "72." := by decide
    rw [extractConfidence, h1]
    simp [parseNum, List.span, List.span.loop, digitsVal]
  · intro t h
    rw [extractVerdict, h]
    rfl
  · intro t h
    rw [extractConfidence, h]

/-- C4 witness: both defaults at a text with no matches. -/
theorem c4_witness :
    extractVerdict "nothing of note" = "unverifiable" ∧
    extractConfidence "nothing of note" = 1/2 :=
  ⟨c4_verdict_confidence_extraction.2.2.2.2.1 _ (by decide),
   c4_verdict_confidence_extraction.2.2.2.2.2 _ (by decide)⟩

/-- Sample fact-check response text with exactly two evidence lines. -/
def evidenceSampleText : String :=
  "Source: Reuters - confirms the claim\nSource: AP - denies involvement"

/-- C5: evidence extraction on the two-line sample yields the two records
in input order, the first supporting (it contains "confirm"), the second
not, both with credibility 0.8; in general the list is capped at 5 and
every item has credibility 0.8. -/
theorem c5_evidence_extraction :
    extractEvidence evidenceSampleText =
      [⟨"Reuters", true, "confirms the claim", 4/5⟩, ⟨"AP", false, "denies involvement", 4/5⟩] ∧
    (∀ t : String, (extractEvidence t).length ≤ 5) ∧
    (∀ t : String, (extractEvidence t).all (fun ev => decide (ev.credibility = 4/5)) = true) := by
  refine ⟨by rfl, ?_, ?_⟩
  · intro t
    unfold extractEvidence
    simp [List.length_take]
  · intro t
    rw [List.all_eq_true]
    intro ev hev
    have hm : ev ∈ (scanSources t.toList.length t.toList).map mkEvidence :=
      List.take_subset 5 _ hev
    obtain ⟨p, -, rfl⟩ := List.mem_map.mp hm
    simp [mkEvidence]

/-- C6 counterexample: a text containing both "rising" and "declining"
yields "declining" according to the claim's particular case, but the code
checks "rising" first. -/
theorem c6_counterexample :
    trendDirectionOf "interest is rising in some regions and declining in others" = "rising" ∧
    trendDirectionOf "interest is rising in some regions and declining in others" ≠ "declining" := by
  constructor <;> decide

/-- C6 (amended): trend direction is a case-insensitive substring search
with the fixed priority rising, declining, volatile, default stable; in
particular a text containing "declining" but not "rising" yields
"declining", and a text containing none of the keywords yields "stable". -/
theorem c6_trend_direction :
    (∀ t : String, containsCI t "rising" = true → trendDirectionOf t = "rising") ∧
    (∀ t : String, containsCI t "rising" = false → containsCI t "declining" = true →
      trendDirectionOf t = "declining") ∧
    (∀ t : String, containsCI t "rising" = false → containsCI t "declining" = false →
      containsCI t "volatile" = false → trendDirectionOf t = "stable") := by
  refine ⟨?_, ?_, ?_⟩
  · intro t h
    simp [trendDirectionOf, h]
  · intro t h1 h2
    simp [trendDirectionOf, h1, h2]
  · intro t h1 h2 h3
    simp [trendDirectionOf, h1, h2, h3]

/-- C6 witness: the amended statement at concrete texts. -/
theorem c6_witness :
    trendDirectionOf "the market has been DECLINING lately" = "declining" ∧
    trendDirectionOf "calm steady coverage" = "stable" ∧
    trendDirectionOf "prices are rising" = "rising" :=
  ⟨c6_trend_direction.2.1 _ (by decide) (by decide),
   c6_trend_direction.2.2 _ (by decide) (by decide) (by decide),
   c6_trend_direction.1 _ (by decide)⟩

/-- C7 counterexample: a whitespace-only text field is a non-empty string,
yet with the credential absent the sentiment tool returns the empty-input
fallback, whose explanation does not name the missing credential (the
emptiness test trims first and runs before the credential check). -/
theorem c7_counterexample :
    (sentExecute ⟨none, FetchOutcome.reject "x", none, "T", "F", "N", fun _ => "", fun _ => 0, 0⟩
        ⟨" ", none⟩).1.summary
      = "Sentiment analysis failed: Text input is empty or invalid. Using neutral fallback values." ∧
    mentionsKey
      (sentExecute ⟨none, FetchOutcome.reject "x", none, "T", "F", "N", fun _ => "", fun _ => 0, 0⟩
        ⟨" ", none⟩).1.summary = false := by
  constructor <;> decide

/-- C7 (amended): for every input whose required field is non-blank
(non-empty after trimming), a missing credential makes each of the four
tools return its documented fallback record, whose explanatory text names
the missing credential, with no outbound HTTP request. -/
theorem c7_missing_credential :
    ∀ (env : ToolEnv) (ni : NewsInput) (si : SentInput) (fi : FactInput) (ti : TrendInput),
      env.apiKey = none →
      trimStr si.text ≠ "" → trimStr fi.claim ≠ "" → trimStr ti.topic ≠ "" →
      newsExecute env ni = (newsFallback env ni keyMissingMsg, 0) ∧
      mentionsKey (newsExecute env ni).1.summary = true ∧
      sentExecute env si = (sentHardFallback keyMissingMsg, 0) ∧
      mentionsKey (sentExecute env si).1.summary = true ∧
      factExecute env fi = (factFallback fi.claim keyMissingMsg env.now, 0) ∧
      mentionsKey (factExecute env fi).1.explanation = true ∧
      trendExecute env ti = (trendFallback ti.topic ti.timeframe keyMissingMsg, 0) ∧
      mentionsKey (trendExecute env ti).1.analysis = true := by
  intro env ni si fi ti hk hs hf ht
  have h1 : newsExecute env ni = (newsFallback env ni keyMissingMsg, 0) := by
    simp [newsExecute, hk]
  have h2 : sentExecute env si = (sentHardFallback keyMissingMsg, 0) := by
    simp [sentExecute, hs, hk]
  have h3 : factExecute env fi = (factFallback fi.claim keyMissingMsg env.now, 0) := by
    simp [factExecute, hf, hk]
  have h4 : trendExecute env ti = (trendFallback ti.topic ti.timeframe keyMissingMsg, 0) := by
    simp [trendExecute, ht, hk]
  refine ⟨h1, ?_, h2, ?_, h3, ?_, h4, ?_⟩
  · rw [h1]
    show mentionsKey (newsFallbackSummary env.fromDateStr env.nowDateStr ni.topic ni.language keyMissingMsg) = true
    unfold newsFallbackSummary
    exact mentionsKey_append _ _
  · rw [h2]
    exact mentionsKey_append "Sentiment analysis failed: " ". Using neutral fallback values."
  · rw [h3]
    exact mentionsKey_append "Fact-checking failed: " ". Unable to verify this claim at this time."
  · rw [h4]
    show mentionsKey ("Trend analysis failed: " ++ keyMissingMsg ++
      (". Unable to analyze trends for \"" ++ ti.topic ++ "\" at this time.")) = true
    exact mentionsKey_append _ _

/-- C7 witness: the amended statement at concrete inputs. -/
theorem c7_witness :
    sentExecute ⟨none, FetchOutcome.reject "x", none, "T", "F", "N", fun _ => "", fun _ => 0, 0⟩
        ⟨"good news today", none⟩ = (sentHardFallback keyMissingMsg, 0) :=
  (c7_missing_credential
    ⟨none, FetchOutcome.reject "x", none, "T", "F", "N", fun _ => "", fun _ => 0, 0⟩
    ⟨"ai", 5, "en", "publishedAt", "week"⟩ ⟨"good news today", none⟩
    ⟨"the sky is blue", [], none⟩ ⟨"ai", "week", none⟩
    rfl (by decide) (by decide) (by decide)).2.2.1

/-- C8: a successful sentiment HTTP response whose content passes the
shared checks but fails `JSON.parse` yields the fixed neutral-leaning
default (joy 0.5, trust 0.5, other emotions 0.1, confidence 0.7), not the
hard-failure fallback. -/
theorem c8_sentiment_parse_fallback :
    ∀ (env : ToolEnv) (i : SentInput) (k : String) (data : ChatData) (s : String),
      trimStr i.text ≠ "" → env.apiKey = some k → env.fetch = .ok data →
      extractContent data = .ok s → env.parsed = none →
      sentExecute env i = (sentParseFallbackResult, 1) := by
  intro env i k data s hne hk hf hc hp
  simp only [sentExecute, hne, hk, hf, hc, hp, if_neg hne]
  rfl

/-- C8 witness: the statement at a concrete environment whose response
content is present but unparseable. -/
theorem c8_witness :
    sentExecute
        ⟨some "k", FetchOutcome.ok ⟨some [⟨some ⟨some "not json"⟩⟩]⟩, none, "T", "F", "N",
         fun _ => "", fun _ => 0, 0⟩
        ⟨"good news today", none⟩ = (sentParseFallbackResult, 1) :=
  c8_sentiment_parse_fallback _ _ "k" ⟨some [⟨some ⟨some "not json"⟩⟩]⟩ "not json"
    (by decide) rfl rfl rfl rfl

/-- C9: on a run reaching the structuring stage, the result is the pure
structuring of the step outputs (no further tool invocation: the run's
call count is exactly news + sentiment + fact-check fan-out + trend);
riskLevel follows the fear/anger thresholds and misinformationRisk is
"high" exactly when some fact-check verdict is "false". -/
theorem c9_structuring_stage :
    ∀ (env : WfEnv) (d : WfInput) (news : NewsResult) (sent : SentResult) (trend : TrendResult),
      env.newsOutcome = .ok news →
      env.sentimentOutcome = .ok sent →
      env.trendOutcome = .ok trend →
      wfExecute env (some d) = structureResult d news sent (wfFactResults env news.summary) trend env.now ∧
      (wfExecute env (some d)).executiveSummary.riskLevel =
        (if 6/10 < sent.emotions.fear then "high"
         else if 1/2 < sent.emotions.anger then "medium" else "low") ∧
      ((wfExecute env (some d)).factChecking.misinformationRisk = "high" ↔
        ∃ r ∈ wfFactResults env news.summary, r.verdict = "false") ∧
      ((wfExecute env (some d)).factChecking.misinformationRisk = "high" ∨
        (wfExecute env (some d)).factChecking.misinformationRisk = "low") ∧
      wfCalls env (some d) = 3 + min (extractQuoted news.summary).length 3 := by
  intro env d news sent trend hn hs ht
  have h1 : wfExecute env (some d) =
      structureResult d news sent (wfFactResults env news.summary) trend env.now := by
    simp [wfExecute, hn, hs, ht]
  refine ⟨h1, by rw [h1]; rfl, ?_, ?_, ?_⟩
  · rw [h1]
    show (if (wfFactResults env news.summary).any (fun r => r.verdict == "false") then "high"
          else "low") = "high" ↔ _
    by_cases hA : (wfFactResults env news.summary).any (fun r => r.verdict == "false") = true
    · simp only [hA, if_true]
      simpa [List.any_eq_true] using hA
    · rw [if_neg (by simpa using hA)]
      simp only [List.any_eq_true, beq_iff_eq] at hA
      constructor
      · intro h
        exact absurd h (by decide)
      · intro ⟨r, hr, hv⟩
        exact absurd ⟨r, hr, by simp [hv]⟩ hA
  · rw [h1]
    show (if (wfFactResults env news.summary).any (fun r => r.verdict == "false") then "high"
          else "low") = "high" ∨ _
    by_cases hA : (wfFactResults env news.summary).any (fun r => r.verdict == "false") = true
    · exact Or.inl (by rw [if_pos hA])
    · refine Or.inr ?_
      show (if _ then _ else _) = _
      rw [if_neg (by simpa using hA)]
  · simp [wfCalls, hn, hs]
    omega

/-- C9 witness: the statement at a concrete successful run. -/
theorem c9_witness :
    wfCalls
        ⟨Except.ok ⟨"ai", "plain digest with no quotes", "T", 5, ["Perplexity AI Analysis"], "en"⟩,
         Except.ok ⟨"neutral", 0, ⟨0, 0, 0, 0, 0, 0⟩, 1/2, 1/2, [], "s"⟩,
         fun _ => Except.error "x",
         Except.ok ⟨"ai", "week", "stable", 0, [], [], [], [], "a"⟩, "T"⟩
        (some ⟨"ai", "standard", "en", none⟩)
      = 3 + min (extractQuoted "plain digest with no quotes").length 3 :=
  (c9_structuring_stage _ ⟨"ai", "standard", "en", none⟩ _ _ _ rfl rfl rfl).2.2.2.2

/-- C10: the news tool returns exactly one source on both its success and
fallback paths, so a workflow run that reaches the structuring stage with
the news tool's output always reports dataQuality "fair" (the >5 and >2
breakpoints are unreachable). -/
theorem c10_data_quality_fair :
    (∀ (env : ToolEnv) (i : NewsInput), (newsExecute env i).1.sources.length = 1) ∧
    (∀ (wenv : WfEnv) (d : WfInput) (env : ToolEnv) (ni : NewsInput)
        (sent : SentResult) (trend : TrendResult),
      wenv.newsOutcome = .ok (newsExecute env ni).1 →
      wenv.sentimentOutcome = .ok sent →
      wenv.trendOutcome = .ok trend →
      (wfExecute wenv (some d)).metadata.dataQuality = "fair") := by
  refine ⟨newsExecute_sources_length, ?_⟩
  intro wenv d env ni sent trend hn hs ht
  have h1 : wfExecute wenv (some d) =
      structureResult d (newsExecute env ni).1 sent
        (wfFactResults wenv (newsExecute env ni).1.summary) trend wenv.now := by
    simp [wfExecute, hn, hs, ht]
  rw [h1]
  show (if 5 < (newsExecute env ni).1.sources.length then "excellent"
        else if 2 < (newsExecute env ni).1.sources.length then "good" else "fair") = "fair"
  rw [newsExecute_sources_length]
  decide

/-- C10 witness: the statement at a concrete run fed by the news tool. -/
theorem c10_witness :
    (wfExecute
        ⟨Except.ok (newsExecute
            ⟨some "k", FetchOutcome.reject "net down", none, "T", "F", "N", fun _ => "", fun _ => 0, 0⟩
            ⟨"ai", 5, "en", "publishedAt", "week"⟩).1,
         Except.ok ⟨"neutral", 0, ⟨0, 0, 0, 0, 0, 0⟩, 1/2, 1/2, [], "s"⟩,
         fun _ => Except.error "x",
         Except.ok ⟨"ai", "week", "stable", 0, [], [], [], [], "a"⟩, "T"⟩
        (some ⟨"ai", "standard", "en", none⟩)).metadata.dataQuality = "fair" :=
  c10_data_quality_fair.2 _ ⟨"ai", "standard", "en", none⟩
    ⟨some "k", FetchOutcome.reject "net down", none, "T", "F", "N", fun _ => "", fun _ => 0, 0⟩
    ⟨"ai", 5, "en", "publishedAt", "week"⟩ _ _ rfl rfl rfl

end NewsAgent
